import Mathlib

/-!
Verification of the football-analytics coordinate/event reconciliation core.

Shallow embedding of `src/football_analytics/processors/ball_coordinates.py`
(class `BallCoordinateProcessor`) and the event-linking confidence banding of
`src/football_analytics/processors/events.py` (`EventProcessor.link_to_ball_coordinates`).

Conventions of the embedding:
* Python floats are modelled by `ℚ` (the numeric literals of the source are
  exact decimals); pandas NaN / Python None are modelled by `Option`.
* A pandas DataFrame is modelled as a `List` of record structures in index
  order, together with booleans recording the presence of those optional
  columns whose absence changes control flow (`second`, `period_id`).
  Columns whose absence is observationally equivalent to an all-null column
  (`minute`, `estimated_minute`, the event type column) are modelled by the
  per-row `Option` fields alone.
* `distance_to_goal` (a Euclidean square root, irrational in general) is not
  carried in the model; no claim refers to it.
-/

namespace FootballAnalytics

/-- Confidence tiers used for possession inference and event linking
(the source uses the strings "high" / "medium" / "low"). -/
inductive Conf where
  | high
  | medium
  | low
  deriving DecidableEq, Repr

/-- One ball-position observation (a row of the coordinates DataFrame). -/
structure Sample where
  x : Option ℚ
  y : Option ℚ
  sequence : Int
  period_id : Option Int
  minute : Option ℚ
  second : Option ℚ
  pitch_zone : String
  width_zone : String
  estimated_minute : Option ℚ
  possession_team : Option Int
  possession_confidence : Option Conf
  deriving DecidableEq, Repr

/-- One discrete match event (a row of the events DataFrame).
`type_name` is the raw event-type string (`type_name` / `event_type` column);
`none` models a null entry (`str.contains(..., na=False)` treats it as
non-matching). -/
structure Event where
  minute : ℚ
  team_id : Option Int
  type_name : Option String
  period_id : Option Int
  deriving DecidableEq, Repr

/-- The coordinates DataFrame: rows in index order plus presence flags for
the optional columns whose absence the source branches on. -/
structure CoordFrame where
  rows : List Sample
  hasSecondCol : Bool
  hasPeriodCol : Bool
  deriving DecidableEq, Repr

/-- The events DataFrame: rows in index order plus the `period_id`
column-presence flag (`solve_timestamp_problem` branches on it). -/
structure EventFrame where
  rows : List Event
  hasPeriodCol : Bool
  deriving DecidableEq, Repr

/-! ### Pitch geometry (`categorize_pitch_zone`, `categorize_width_zone`) -/

/-- `BallCoordinateProcessor.DEFENSIVE_THIRD_X = 0.34`. -/
def DEFENSIVE_THIRD_X : ℚ := 34/100

/-- `BallCoordinateProcessor.ATTACKING_THIRD_X = 0.67`. -/
def ATTACKING_THIRD_X : ℚ := 67/100

/-- `BallCoordinateProcessor.LEFT_WING_Y = 0.25`. -/
def LEFT_WING_Y : ℚ := 25/100

/-- `BallCoordinateProcessor.RIGHT_WING_Y = 0.75`. -/
def RIGHT_WING_Y : ℚ := 75/100

/-- `BallCoordinateProcessor.categorize_pitch_zone`. -/
def categorize_pitch_zone (x : Option ℚ) : String :=
  match x with
  | none => "unknown"
  | some v =>
    if v < DEFENSIVE_THIRD_X then "defensive_third"
    else if v < ATTACKING_THIRD_X then "middle_third"
    else "attacking_third"

/-- `BallCoordinateProcessor.categorize_width_zone`. -/
def categorize_width_zone (y : Option ℚ) : String :=
  match y with
  | none => "unknown"
  | some v =>
    if v < LEFT_WING_Y then "left_wing"
    else if v < RIGHT_WING_Y then "center"
    else "right_wing"

/-! ### Coordinate parsing (`parse_coordinates`, `_parse_timer`) -/

/-- One raw position record as handed to `parse_coordinates` after JSON
loading and numeric coercion: `x`/`y` are the `pd.to_numeric(..., errors="coerce")`
results (`none` = NaN), `sequence` is the source-provided sequence value when
the record carries one, `timer` the raw `"MM:SS"` string. -/
structure RawCoord where
  x : Option ℚ
  y : Option ℚ
  sequence : Option Int
  timer : Option String
  deriving DecidableEq, Repr

/-- `BallCoordinateProcessor._parse_timer`'s inner `parse_time`:
`"45:32" ↦ (some 45, some 32)`; anything malformed yields `(none, none)`. -/
def parse_time (timer : Option String) : Option Int × Option Int :=
  match timer with
  | none => (none, none)
  | some str =>
    match (str.splitOn ":").map String.toInt? with
    | [some m, some s] => (some m, some s)
    | _ => (none, none)

/-- Result of `parse_coordinates`. The source function only ever produces a
`frame`; the `error` constructor exists so that the spec's claimed
`EmptyDataError` signaling is expressible in the same codomain. -/
inductive ParseOutcome where
  | frame (rows : List Sample)
  | error (kind : String)
  deriving DecidableEq, Repr

/-- Build one parsed row of `parse_coordinates` from a raw record and its
positional index (used when the source supplies no sequence, mirroring
`df["sequence"] = range(len(df))`). -/
def parse_row (i : ℕ) (r : RawCoord) : Sample :=
  let ms := parse_time r.timer
  { x := r.x
    y := r.y
    sequence := r.sequence.getD i
    period_id := none
    minute := ms.1.map (fun m => (m : ℚ))
    second := ms.2.map (fun s => (s : ℚ))
    pitch_zone := categorize_pitch_zone r.x
    width_zone := categorize_width_zone r.y
    estimated_minute := none
    possession_team := none
    possession_confidence := none }

/-- `BallCoordinateProcessor.parse_coordinates`, from the point where the raw
record list has been extracted from the JSON document: an empty record list is
returned as an ordinary empty DataFrame (after a warning log); a non-empty one
is converted row by row with the derived pitch-geometry fields populated. -/
def parse_coordinates (raws : List RawCoord) : ParseOutcome :=
  match raws with
  | [] => .frame []
  | _ => .frame ((raws.enum).map (fun p => parse_row p.1 p.2))

/-! ### Time reconciliation (`solve_timestamp_problem` and helpers) -/

/-- Minimum of a non-empty list given as head and tail (pandas `Series.min`). -/
def foldMin (q : ℚ) (l : List ℚ) : ℚ := l.foldl min q

/-- Maximum of a non-empty list given as head and tail (pandas `Series.max`). -/
def foldMax (q : ℚ) (l : List ℚ) : ℚ := l.foldl max q

/-- `BallCoordinateProcessor._sync_by_period`, expressed per sample: the loop
over the distinct non-null `period_id` values assigns to exactly the samples of
each period, so the result is a row-wise map. A sample with null `period_id`,
or whose period has no matching events, or whose period's sequence range is not
strictly positive, keeps the NaN that `estimated_minute` was initialized to. -/
def sync_by_period_row (coords : List Sample) (events : List Event) (s : Sample) : Sample :=
  match s.period_id with
  | none => { s with estimated_minute := none }
  | some p =>
    match events.filter (fun e => e.period_id == some p) with
    | [] => { s with estimated_minute := none }
    | e0 :: es =>
      let min_minute := foldMin e0.minute (es.map Event.minute)
      let max_minute := foldMax e0.minute (es.map Event.minute)
      let duration := if max_minute - min_minute ≤ 0 then 45 else max_minute - min_minute
      match (coords.filter (fun c => c.period_id == some p)).map Sample.sequence with
      | [] => { s with estimated_minute := none }
      | q0 :: qs =>
        let seq_min := (qs.foldl min q0 : Int)
        let seq_max := (qs.foldl max q0 : Int)
        if seq_max - seq_min > 0 then
          { s with estimated_minute := some (min_minute +
              (((s.sequence - seq_min : Int) : ℚ) / ((seq_max - seq_min : Int) : ℚ)) * duration) }
        else { s with estimated_minute := none }

/-- `BallCoordinateProcessor._sync_by_period`. -/
def sync_by_period (coords : CoordFrame) (events : EventFrame) : CoordFrame :=
  { coords with rows := coords.rows.map (sync_by_period_row coords.rows events.rows) }

/-- `BallCoordinateProcessor._estimate_time_from_sequence`:
`estimated_minute = sequence / total_coords * 95`. -/
def estimate_time_from_sequence (coords : CoordFrame) : CoordFrame :=
  { coords with rows := coords.rows.map (fun s =>
      { s with estimated_minute := some ((s.sequence : ℚ) / (coords.rows.length : ℚ) * 95) }) }

/-- Strategy 1 of `solve_timestamp_problem`, per row:
`estimated_minute = minute + coords_df.get("second", 0) / 60`. When the
`second` column is absent, `df.get` yields the scalar 0; when it is present,
a null `second` propagates null through the addition (NaN arithmetic). A null
`minute` always propagates null. -/
def direct_timer_row (hasSecondCol : Bool) (s : Sample) : Sample :=
  { s with estimated_minute :=
      match s.minute with
      | none => none
      | some m =>
        if hasSecondCol then s.second.map (fun sec => m + sec / 60)
        else some (m + 0 / 60) }

/-- `BallCoordinateProcessor.solve_timestamp_problem`: strategy 1 when the
non-null `minute` count strictly exceeds 80% of the rows, else strategy 2 when
both frames carry a `period_id` column, else strategy 3. (The source's
`"minute" in coords_df.columns` guard is subsumed: a missing column behaves as
an all-null column, whose non-null count 0 never exceeds the threshold.) -/
def solve_timestamp_problem (coords : CoordFrame) (events : EventFrame) : CoordFrame :=
  if ((coords.rows.filter (fun s => s.minute.isSome)).length : ℚ) >
      (coords.rows.length : ℚ) * (8/10) then
    { coords with rows := coords.rows.map (direct_timer_row coords.hasSecondCol) }
  else if coords.hasPeriodCol && events.hasPeriodCol then
    sync_by_period coords events
  else
    estimate_time_from_sequence coords

/-! ### Event-coordinate linking (`link_event_to_coordinate`) -/

/-- First minimum of a list of (row, time-difference) pairs: `Series.idxmin`
returns the first index attaining the minimum, so an earlier pair is kept
unless a later one is strictly smaller. -/
def pickClosest : List (Sample × ℚ) → Option (Sample × ℚ)
  | [] => none
  | p :: rest =>
    match pickClosest rest with
    | none => some p
    | some q => if q.2 < p.2 then some q else some p

/-- One row's contribution to the `within_tolerance` frame of
`link_event_to_coordinate`: the row paired with its absolute time difference
when the row qualifies, `none` otherwise (a null `estimated_minute` fails the
`≤` comparison, NaN semantics). -/
def link_diff (m tol : ℚ) (s : Sample) : Option (Sample × ℚ) :=
  match s.estimated_minute with
  | none => none
  | some t => if |t - m| ≤ tol then some (s, |t - m|) else none

/-- `BallCoordinateProcessor.link_event_to_coordinate`: `event_minute` is the
event row's `minute` entry (`none` = missing/NaN). Rows with a null
`estimated_minute` never qualify, which also covers the source's early return
when the `estimated_minute` column is absent. -/
def link_event_to_coordinate (event_minute : Option ℚ) (coords : CoordFrame)
    (tolerance_seconds : ℚ) : Option Sample :=
  match event_minute with
  | none => none
  | some m =>
    (pickClosest (coords.rows.filterMap (link_diff m (tolerance_seconds / 60)))).map Prod.fst

/-! ### Possession inference (`infer_possession`) -/

/-- Substring test over character lists (the joined possession keywords form a
regex of literal alternatives, so `str.contains` is plain substring search). -/
def charsStartWith : List Char → List Char → Bool
  | [], _ => true
  | _ :: _, [] => false
  | a :: as, b :: bs => a == b && charsStartWith as bs

/-- Whether `pat` occurs as a contiguous substring of `l`. -/
def charsContain (pat : List Char) : List Char → Bool
  | [] => pat.isEmpty
  | b :: bs => charsStartWith pat (b :: bs) || charsContain pat bs

/-- The `possession_events` keyword list of `infer_possession`. -/
def possession_keywords : List String :=
  ["pass", "shot", "cross", "dribble", "touch",
   "goal_kick", "throw_in", "corner", "free_kick"]

/-- The possession-event filter:
`events_df[type_col].str.lower().str.contains("pass|shot|...", na=False)`. -/
def is_possession_event (e : Event) : Bool :=
  match e.type_name with
  | none => false
  | some tn => possession_keywords.any (fun k =>
      charsContain k.toList (tn.toList.map Char.toLower))

/-- Insert an event into a minute-sorted list (`sort_values("minute")`). -/
def insertByMinute (e : Event) : List Event → List Event
  | [] => [e]
  | x :: xs => if e.minute < x.minute then e :: x :: xs else x :: insertByMinute e xs

/-- Sort events ascending by minute. -/
def sortByMinute (l : List Event) : List Event := l.foldr insertByMinute []

/-- The minute-sorted possession-indicating events (`poss_events`). -/
def poss_events_sorted (events : EventFrame) : List Event :=
  sortByMinute (events.rows.filter is_possession_event)

/-- `last_event`: the latest possession-indicating event with `minute ≤ t`
(`events_before.iloc[-1]` over the minute-sorted filtered frame). -/
def last_event_before (events : EventFrame) (t : ℚ) : Option Event :=
  ((poss_events_sorted events).filter (fun e => e.minute ≤ t)).getLast?

/-- `next_event`: the earliest possession-indicating event with `minute > t`
(`events_after.iloc[0]` over the minute-sorted filtered frame). -/
def next_event_after (events : EventFrame) (t : ℚ) : Option Event :=
  ((poss_events_sorted events).filter (fun e => t < e.minute)).head?

/-- The per-row body of `infer_possession`'s loop, applied to a row whose
possession fields have been initialized to null. Branches that assign nothing
leave those nulls in place — in particular a row with `dt ≥ 0.33` and no later
possession event is left unassigned (`if len(events_after) > 0` has no else). -/
def infer_possession_row (events : EventFrame) (s : Sample) : Sample :=
  match s.estimated_minute with
  | none => s
  | some t =>
    match last_event_before events t with
    | none => s
    | some last =>
      if t - last.minute < 17/100 then
        { s with possession_team := last.team_id, possession_confidence := some Conf.high }
      else if t - last.minute < 33/100 then
        { s with possession_team := last.team_id, possession_confidence := some Conf.medium }
      else
        match next_event_after events t with
        | none => s
        | some nxt =>
          if nxt.minute - t < 33/100 ∧ nxt.team_id ≠ last.team_id then
            { s with possession_team := nxt.team_id, possession_confidence := some Conf.low }
          else
            { s with possession_team := last.team_id, possession_confidence := some Conf.low }

/-- `BallCoordinateProcessor.infer_possession`: both possession columns are
initialized to null for every row, then each row with a non-null
`estimated_minute` is assigned per `infer_possession_row`. (The source's early
return when no event-type column exists is subsumed: it is observationally an
all-null type column, under which no event passes the possession filter and no
row is assigned.) -/
def infer_possession (coords : CoordFrame) (events : EventFrame) : CoordFrame :=
  { coords with rows := coords.rows.map (fun s =>
      infer_possession_row events
        { s with possession_team := none, possession_confidence := none }) }

/-! ### Event linking confidence (`EventProcessor.link_to_ball_coordinates`) -/

/-- The per-event link columns populated by `link_to_ball_coordinates`. -/
structure LinkResult where
  ball_x : Option ℚ
  ball_y : Option ℚ
  ball_zone : Option String
  link_confidence : Option Conf
  deriving DecidableEq, Repr

/-- The confidence banding of `link_to_ball_coordinates` on the linked time
difference: `time_diff < 0.05` → high, `time_diff < 0.083` → medium, else low. -/
def link_confidence_of (time_diff : ℚ) : Conf :=
  if time_diff < 5/100 then Conf.high
  else if time_diff < 83/1000 then Conf.medium
  else Conf.low

/-- One iteration of `link_to_ball_coordinates`' loop for an event row with
minute entry `event_minute`: the four link columns it leaves on the event
(all initialized to null, populated only when a coordinate links). The time
difference uses `closest_coord.get("estimated_minute", 0)` and
`event.get("minute", 0)` with their source defaults. -/
def link_to_ball_coordinates_row (event_minute : Option ℚ) (coords : CoordFrame)
    (tolerance_seconds : ℚ) : LinkResult :=
  match link_event_to_coordinate event_minute coords tolerance_seconds with
  | none => ⟨none, none, none, none⟩
  | some c =>
    let time_diff := |c.estimated_minute.getD 0 - event_minute.getD 0|
    ⟨c.x, c.y, some c.pitch_zone, some (link_confidence_of time_diff)⟩

/-! ### Possession validation (`validate_possession_inference`) -/

/-- Result dictionary of `validate_possession_inference`, one constructor per
source return shape (keyed by which fields the returned dict carries). -/
inductive ValidationOutcome where
  | noCoords
  | noOfficial (calculated : ℚ)
  | banded (calculated : ℚ) (official : ℚ) (difference : ℚ) (validation : String)
  deriving DecidableEq, Repr

/-- `calculated_possession = liverpool_coords / total_coords * 100`. -/
def calculated_possession (coords : CoordFrame) (team_id : Int) : ℚ :=
  ((coords.rows.filter (fun s => s.possession_team == some team_id)).length : ℚ) /
    (coords.rows.length : ℚ) * 100

/-- `BallCoordinateProcessor.validate_possession_inference`. -/
def validate_possession_inference (coords : CoordFrame) (official_possession : Option ℚ)
    (team_id : Int) : ValidationOutcome :=
  if coords.rows.length = 0 then .noCoords
  else
    let calculated := calculated_possession coords team_id
    match official_possession with
    | none => .noOfficial calculated
    | some official =>
      let difference := |calculated - official|
      let validation :=
        if difference < 5 then "PASSED - Within 5%"
        else if difference < 10 then "WARNING - Within 10%"
        else "FAILED - Difference >10%"
      .banded calculated official difference validation

/-! ### Concrete instances used in witnesses and counterexamples -/

/-- A sample with every optional field null (the shape `parse_coordinates`
produces for a record with no usable fields). -/
def baseSample : Sample :=
  { x := none, y := none, sequence := 0, period_id := none, minute := none, second := none,
    pitch_zone := "unknown", width_zone := "unknown", estimated_minute := none,
    possession_team := none, possession_confidence := none }

/-- A sample with a given sequence and estimated minute. -/
def estSample (sq : Int) (t : ℚ) : Sample :=
  { baseSample with sequence := sq, estimated_minute := some t }

/-- A sample with a given sequence and raw timer minute. -/
def minSample (sq : Int) (m : Option ℚ) : Sample :=
  { baseSample with sequence := sq, minute := m }

/-- A sample with a given inferred possession team. -/
def possSample (team : Option Int) : Sample :=
  { baseSample with possession_team := team }

/-- A sample with a given sequence and period. -/
def periodSample (sq : Int) (p : Int) : Sample :=
  { baseSample with sequence := sq, period_id := some p }

/-- A possession-indicating event by team 1 at minute 20. -/
def evPassA : Event := { minute := 20, team_id := some 1, type_name := some "Pass", period_id := none }

/-- A possession-indicating event by team 2 at minute 20.4. -/
def evShotB : Event := { minute := 204/10, team_id := some 2, type_name := some "shot", period_id := none }

def eventsA : EventFrame := ⟨[evPassA], false⟩

def eventsAB : EventFrame := ⟨[evPassA, evShotB], false⟩

def noEvents : EventFrame := ⟨[], false⟩

def coordsAt201 : CoordFrame := ⟨[estSample 0 (201/10)], false, false⟩

def coordsAt21 : CoordFrame := ⟨[estSample 0 21], false, false⟩

def coordsAt2035 : CoordFrame := ⟨[estSample 0 (2035/100)], false, false⟩

def coordsAt205 : CoordFrame := ⟨[estSample 0 (205/10)], false, false⟩

/-- Five samples, exactly four (80%) with a non-null minute. -/
def coordsTimer80 : CoordFrame :=
  ⟨[minSample 0 (some 10), minSample 1 (some 11), minSample 2 (some 12),
    minSample 3 (some 13), minSample 4 none], false, false⟩

/-- One sample with a non-null minute and a null second, in a frame whose
`second` column exists. -/
def coordsNullSecond : CoordFrame :=
  ⟨[{ baseSample with minute := some 10, second := none }], true, false⟩

/-- Five samples, all with a non-null minute. -/
def coordsTimer100 : CoordFrame :=
  ⟨[minSample 0 (some 10), minSample 1 (some 11), minSample 2 (some 12),
    minSample 3 (some 13), minSample 4 (some 14)], false, false⟩

/-- Two samples tied in time distance to minute 10, listed with the larger
sequence first. -/
def coordsTie : CoordFrame := ⟨[estSample 5 (10 + 1/20), estSample 1 (10 - 1/20)], false, false⟩

/-- One sample exactly 5.0 s after minute 10. -/
def coordsBoundary : CoordFrame := ⟨[estSample 0 (10 + 1/12)], false, false⟩

/-- One sample 5.04 s after minute 10. -/
def coordsPastBoundary : CoordFrame := ⟨[estSample 0 (10 + 84/1000)], false, false⟩

/-- One sample 0.083 min (4.98 s) after minute 0. -/
def coordsNearTol : CoordFrame := ⟨[estSample 0 (83/1000)], false, false⟩

/-- Ten samples, seven with possession team 8: calculated possession 70%. -/
def coordsPoss70 : CoordFrame :=
  ⟨List.replicate 7 (possSample (some 8)) ++ List.replicate 3 (possSample none), false, false⟩

/-- One period-1 sample (a period whose sequence range is zero). -/
def coordsOnePeriod : CoordFrame := ⟨[periodSample 3 1], true, true⟩

/-- Two period-1 events spanning minutes 0 to 10. -/
def eventsPeriod1 : EventFrame :=
  ⟨[{ minute := 0, team_id := none, type_name := none, period_id := some 1 },
    { minute := 10, team_id := none, type_name := none, period_id := some 1 }], true⟩

/-! ### Helper lemmas -/

theorem foldl_min_eq_of_all_eq (l : List Int) (v : Int) (h : ∀ x ∈ l, x = v) :
    l.foldl min v = v := by
  induction l with
  | nil => rfl
  | cons a as ih =>
    have ha : a = v := h a (by simp)
    rw [List.foldl_cons, ha, min_self]
    exact ih fun x hx => h x (List.mem_cons_of_mem _ hx)

theorem foldl_max_eq_of_all_eq (l : List Int) (v : Int) (h : ∀ x ∈ l, x = v) :
    l.foldl max v = v := by
  induction l with
  | nil => rfl
  | cons a as ih =>
    have ha : a = v := h a (by simp)
    rw [List.foldl_cons, ha, max_self]
    exact ih fun x hx => h x (List.mem_cons_of_mem _ hx)

/-! ### Claim theorems -/

/-- C5 (corrected at `x = 0.67`): `categorize_pitch_zone (some 0.67)` is
`attacking_third`, not `middle_third` as the claim states. -/
theorem pitch_zone_boundary_cex :
    categorize_pitch_zone (some (67/100)) = "attacking_third" ∧
      "attacking_third" ≠ "middle_third" := by
  constructor
  · norm_num [categorize_pitch_zone, DEFENSIVE_THIRD_X, ATTACKING_THIRD_X]
  · decide

/-- C5 (amended): for every `x` in `[0,1]`, `categorize_pitch_zone` returns
exactly one of the three named zones and never `"unknown"`; the boundary value
`x = 0.34` lands in `middle_third`, while `x = 0.67` lands in
`attacking_third` (the middle third is the closed-open interval
`[0.34, 0.67)`). -/
theorem pitch_zone_totality (x : ℚ) (h0 : 0 ≤ x) (h1 : x ≤ 1) :
    (categorize_pitch_zone (some x) = "defensive_third" ∨
     categorize_pitch_zone (some x) = "middle_third" ∨
     categorize_pitch_zone (some x) = "attacking_third") ∧
    categorize_pitch_zone (some x) ≠ "unknown" ∧
    categorize_pitch_zone (some (34/100)) = "middle_third" ∧
    categorize_pitch_zone (some (67/100)) = "attacking_third" := by
  refine ⟨?_, ?_, ?_, ?_⟩
  · simp only [categorize_pitch_zone]
    split_ifs <;> simp
  · simp only [categorize_pitch_zone]
    split_ifs <;> decide
  · norm_num [categorize_pitch_zone, DEFENSIVE_THIRD_X, ATTACKING_THIRD_X]
  · norm_num [categorize_pitch_zone, DEFENSIVE_THIRD_X, ATTACKING_THIRD_X]

/-- C5 witness: instantiation of `pitch_zone_totality` at `x = 1/2`. -/
theorem pitch_zone_totality_witness :
    (0 : ℚ) ≤ 1/2 ∧ (1/2 : ℚ) ≤ 1 ∧
    ((categorize_pitch_zone (some (1/2)) = "defensive_third" ∨
      categorize_pitch_zone (some (1/2)) = "middle_third" ∨
      categorize_pitch_zone (some (1/2)) = "attacking_third") ∧
     categorize_pitch_zone (some (1/2)) ≠ "unknown" ∧
     categorize_pitch_zone (some (34/100)) = "middle_third" ∧
     categorize_pitch_zone (some (67/100)) = "attacking_third") :=
  ⟨by norm_num, by norm_num, pitch_zone_totality (1/2) (by norm_num) (by norm_num)⟩

/-- C6 (corrected): on zero raw records `parse_coordinates` returns an
ordinary empty frame — it does not signal any error value. -/
theorem parse_empty_cex : parse_coordinates [] = ParseOutcome.frame [] := rfl

/-- C6 (amended): given zero position records the coordinate parser returns an
ordinary empty result (logging only a warning); no distinct error kind such as
the spec's `EmptyDataError` is signaled to the caller. -/
theorem parse_empty_returns_frame (raws : List RawCoord) (h : raws = []) :
    parse_coordinates raws = ParseOutcome.frame [] ∧
      ∀ k, parse_coordinates raws ≠ ParseOutcome.error k := by
  subst h
  exact ⟨rfl, fun k hk => by simp [parse_coordinates] at hk⟩

/-- C6 witness: instantiation of `parse_empty_returns_frame` at the empty
record list. -/
theorem parse_empty_returns_frame_witness :
    ([] : List RawCoord) = [] ∧
    (parse_coordinates [] = ParseOutcome.frame [] ∧
      ∀ k, parse_coordinates [] ≠ ParseOutcome.error k) :=
  ⟨rfl, parse_empty_returns_frame [] rfl⟩

/-- C8 (confirmed): on a non-empty frame with a non-null official percentage
the validator reports `difference = |calculated - official|` and bands the
verdict as pass below 5, warning in `[5, 10)`, and fail at 10 or above (the
boundary difference 10 is a fail). -/
theorem validator_banding (coords : CoordFrame) (off : ℚ) (team : Int)
    (h : coords.rows ≠ []) :
    ∃ v, validate_possession_inference coords (some off) team =
        ValidationOutcome.banded (calculated_possession coords team) off
          |calculated_possession coords team - off| v ∧
      (|calculated_possession coords team - off| < 5 → v = "PASSED - Within 5%") ∧
      (5 ≤ |calculated_possession coords team - off| →
        |calculated_possession coords team - off| < 10 → v = "WARNING - Within 10%") ∧
      (10 ≤ |calculated_possession coords team - off| → v = "FAILED - Difference >10%") := by
  have hlen : ¬ coords.rows.length = 0 := by simpa using h
  unfold validate_possession_inference
  rw [if_neg hlen]
  refine ⟨_, rfl, ?_, ?_, ?_⟩
  · intro hd
    rw [if_pos hd]
  · intro hd1 hd2
    rw [if_neg (not_lt.2 hd1), if_pos hd2]
  · intro hd
    rw [if_neg (not_lt.2 (by linarith)), if_neg (not_lt.2 hd)]

/-- C8 witness: `validator_banding` at a ten-sample frame with seven samples
possessed by team 8 (calculated 70%) against an official 60%. -/
theorem validator_banding_witness :
    coordsPoss70.rows ≠ [] ∧
    (∃ v, validate_possession_inference coordsPoss70 (some 60) 8 =
        ValidationOutcome.banded (calculated_possession coordsPoss70 8) 60
          |calculated_possession coordsPoss70 8 - 60| v ∧
      (|calculated_possession coordsPoss70 8 - 60| < 5 → v = "PASSED - Within 5%") ∧
      (5 ≤ |calculated_possession coordsPoss70 8 - 60| →
        |calculated_possession coordsPoss70 8 - 60| < 10 → v = "WARNING - Within 10%") ∧
      (10 ≤ |calculated_possession coordsPoss70 8 - 60| → v = "FAILED - Difference >10%")) :=
  ⟨by decide, validator_banding coordsPoss70 60 8 (by decide)⟩

theorem infer_possession_row_preserves (events : EventFrame) (s : Sample) :
    (infer_possession_row events s).x = s.x ∧
    (infer_possession_row events s).y = s.y ∧
    (infer_possession_row events s).sequence = s.sequence ∧
    (infer_possession_row events s).period_id = s.period_id ∧
    (infer_possession_row events s).minute = s.minute ∧
    (infer_possession_row events s).second = s.second ∧
    (infer_possession_row events s).pitch_zone = s.pitch_zone ∧
    (infer_possession_row events s).width_zone = s.width_zone ∧
    (infer_possession_row events s).estimated_minute = s.estimated_minute := by
  unfold infer_possession_row
  rcases ht : s.estimated_minute with _ | t
  · simp [ht]
  · simp only [ht]
    rcases last_event_before events t with _ | last
    · simp [ht]
    · by_cases h1 : t - last.minute < 17/100
      · simp [h1, ht]
      · by_cases h2 : t - last.minute < 33/100
        · simp [h1, h2, ht]
        · rcases next_event_after events t with _ | nxt
          · simp [h1, h2, ht]
          · by_cases h3 : nxt.minute - t < 33/100 ∧ nxt.team_id ≠ last.team_id
            · simp [h1, h2, h3, ht]
            · simp [h1, h2, h3, ht]

/-- C9 (confirmed): possession inference is a total function of the two input
frames whose only effect on the samples is to populate `possession_team` and
`possession_confidence`; every other field of every row — and the row count —
is preserved, for arbitrary inputs including empty frames. -/
theorem infer_possession_total (coords : CoordFrame) (events : EventFrame) :
    (infer_possession coords events).rows.length = coords.rows.length ∧
    List.Forall₂ (fun s s' =>
        s'.x = s.x ∧ s'.y = s.y ∧ s'.sequence = s.sequence ∧
        s'.period_id = s.period_id ∧ s'.minute = s.minute ∧ s'.second = s.second ∧
        s'.pitch_zone = s.pitch_zone ∧ s'.width_zone = s.width_zone ∧
        s'.estimated_minute = s.estimated_minute)
      coords.rows (infer_possession coords events).rows := by
  constructor
  · simp [infer_possession]
  · rw [infer_possession]
    rw [List.forall₂_map_right_iff, List.forall₂_same]
    intro s _
    exact infer_possession_row_preserves events
      { s with possession_team := none, possession_confidence := none }

/-- C3 (corrected): at the 80% boundary the claim fails — with exactly four of
five samples carrying a non-null minute, `solve_timestamp_problem` falls
through to strategy 3 (sample 0 gets `estimated_minute` 0, not its timer
minute 10); moreover, with the `second` column present but null on a row,
strategy 1 yields a null `estimated_minute`, not `minute + 0/60`. -/
theorem direct_timer_boundary_cex :
    ((coordsTimer80.rows.filter (fun s => s.minute.isSome)).length : ℚ) =
        (coordsTimer80.rows.length : ℚ) * (8/10) ∧
    (solve_timestamp_problem coordsTimer80 noEvents).rows.map Sample.estimated_minute =
        [some 0, some 19, some 38, some 57, some 76] ∧
    some (0 : ℚ) ≠ some (10 : ℚ) ∧
    ((coordsNullSecond.rows.filter (fun s => s.minute.isSome)).length : ℚ) >
        (coordsNullSecond.rows.length : ℚ) * (8/10) ∧
    (solve_timestamp_problem coordsNullSecond noEvents).rows.map Sample.estimated_minute =
        [none] ∧
    (none : Option ℚ) ≠ some (10 : ℚ) := by
  refine ⟨?_, ?_, ?_, ?_, ?_, ?_⟩
  · norm_num [coordsTimer80, minSample, baseSample]
  · norm_num [solve_timestamp_problem, estimate_time_from_sequence, sync_by_period,
      direct_timer_row, coordsTimer80, minSample, baseSample, noEvents]
  · simp
  · norm_num [coordsNullSecond, baseSample]
  · norm_num [solve_timestamp_problem, direct_timer_row, coordsNullSecond, baseSample, noEvents]
  · simp

/-- C3 (amended): when strictly more than 80% of the samples carry a non-null
`minute`, the reconciler uses the direct-timer strategy on every row:
`estimated_minute = minute + second/60`, where a missing `second` column
contributes 0, a null `second` in an existing column propagates null, and a
null `minute` keeps null; strategies 2 and 3 are not used. -/
theorem direct_timer_strategy (coords : CoordFrame) (events : EventFrame)
    (h : ((coords.rows.filter (fun s => s.minute.isSome)).length : ℚ) >
          (coords.rows.length : ℚ) * (8/10)) :
    List.Forall₂ (fun s s' =>
        s' = { s with estimated_minute :=
          match s.minute with
          | none => none
          | some m =>
            if coords.hasSecondCol then s.second.map (fun sec => m + sec / 60)
            else some m })
      coords.rows (solve_timestamp_problem coords events).rows := by
  unfold solve_timestamp_problem
  rw [if_pos h]
  rw [List.forall₂_map_right_iff, List.forall₂_same]
  intro s _
  unfold direct_timer_row
  rcases hm : s.minute with _ | m
  · simp [hm]
  · simp only [hm]
    rcases hSec : coords.hasSecondCol
    · simp only [Bool.false_eq_true, if_false]
      have : m + 0 / 60 = m := by norm_num
      rw [this]
    · simp only [if_true]

/-- C3 witness: `direct_timer_strategy` at a five-sample frame where every
sample has a non-null minute (100% > 80%). -/
theorem direct_timer_strategy_witness :
    ((coordsTimer100.rows.filter (fun s => s.minute.isSome)).length : ℚ) >
        (coordsTimer100.rows.length : ℚ) * (8/10) ∧
    List.Forall₂ (fun s s' =>
        s' = { s with estimated_minute :=
          match s.minute with
          | none => none
          | some m =>
            if coordsTimer100.hasSecondCol then s.second.map (fun sec => m + sec / 60)
            else some m })
      coordsTimer100.rows (solve_timestamp_problem coordsTimer100 noEvents).rows :=
  ⟨by norm_num [coordsTimer100, minSample, baseSample],
   direct_timer_strategy coordsTimer100 noEvents
     (by norm_num [coordsTimer100, minSample, baseSample])⟩

/-- C10 (confirmed): under the period-synchronization strategy, a sample whose
period's samples all share one sequence value (in particular a one-sample
period) keeps `estimated_minute` null even when the period has matching
events — assignment requires a strictly positive sequence range. -/
theorem sync_single_sequence_null (coords : CoordFrame) (events : EventFrame)
    (i : ℕ) (s : Sample) (p : Int)
    (hs : coords.rows[i]? = some s)
    (hp : s.period_id = some p)
    (hall : ∀ c ∈ coords.rows, c.period_id = some p → c.sequence = s.sequence) :
    ((sync_by_period coords events).rows[i]?).map Sample.estimated_minute = some none := by
  have hrow : (sync_by_period coords events).rows[i]? =
      some (sync_by_period_row coords.rows events.rows s) := by
    simp [sync_by_period, hs]
  rw [hrow, Option.map_some']
  refine congrArg some ?_
  unfold sync_by_period_row
  rw [hp]
  rcases hfil : events.rows.filter (fun e => e.period_id == some p) with _ | ⟨e0, es⟩
  · simp [hfil]
  · rcases hseq : (coords.rows.filter (fun c => c.period_id == some p)).map Sample.sequence
      with _ | ⟨q0, qs⟩
    · simp [hfil, hseq]
    · have hq : ∀ x ∈ q0 :: qs, x = s.sequence := by
        intro x hx
        rw [← hseq] at hx
        obtain ⟨c, hc, rfl⟩ := List.mem_map.mp hx
        have hcf := List.mem_filter.mp hc
        exact hall c hcf.1 (by simpa using hcf.2)
      have h0 : q0 = s.sequence := hq q0 (by simp)
      have hmin : qs.foldl min q0 = s.sequence := by
        rw [h0]
        exact foldl_min_eq_of_all_eq qs s.sequence
          (fun x hx => hq x (List.mem_cons_of_mem _ hx))
      have hmax : qs.foldl max q0 = s.sequence := by
        rw [h0]
        exact foldl_max_eq_of_all_eq qs s.sequence
          (fun x hx => hq x (List.mem_cons_of_mem _ hx))
      simp [hfil, hseq, hmin, hmax]

/-- C10 witness: `sync_single_sequence_null` at a one-sample period-1 frame
against two period-1 events spanning minutes 0-10. -/
theorem sync_single_sequence_null_witness :
    coordsOnePeriod.rows[0]? = some (periodSample 3 1) ∧
    (periodSample 3 1).period_id = some 1 ∧
    (∀ c ∈ coordsOnePeriod.rows, c.period_id = some 1 → c.sequence = (periodSample 3 1).sequence) ∧
    ((sync_by_period coordsOnePeriod eventsPeriod1).rows[0]?).map Sample.estimated_minute =
      some none :=
  ⟨rfl, rfl, by decide,
   sync_single_sequence_null coordsOnePeriod eventsPeriod1 0 (periodSample 3 1) 1
     rfl rfl (by decide)⟩

/-- C1 (corrected): for the claim's third example — a possession event at
minute 20 and a sample at minute 21 with no later event — the code leaves the
sample's possession null; it is not assigned the event's team with confidence
low as the claim states. -/
theorem possession_decay_no_next_cex :
    last_event_before eventsA 21 = some evPassA ∧
    next_event_after eventsA 21 = none ∧
    (33/100 : ℚ) ≤ 21 - evPassA.minute ∧
    (infer_possession coordsAt21 eventsA).rows.map
        (fun s => (s.possession_team, s.possession_confidence)) = [(none, none)] ∧
    ((none : Option Int), (none : Option Conf)) ≠ (evPassA.team_id, some Conf.low) := by
  have hA : is_possession_event evPassA = true := by decide
  have hAm : evPassA.minute = 20 := rfl
  refine ⟨?_, ?_, ?_, ?_, ?_⟩
  · norm_num [last_event_before, poss_events_sorted, sortByMinute, insertByMinute,
      eventsA, hA, hAm]
  · norm_num [next_event_after, poss_events_sorted, sortByMinute, insertByMinute,
      eventsA, hA, hAm]
  · norm_num [hAm]
  · norm_num [infer_possession, infer_possession_row, last_event_before, next_event_after,
      poss_events_sorted, sortByMinute, insertByMinute, eventsA, coordsAt21,
      estSample, baseSample, hA, hAm]
  · decide

/-- C1 (amended): for a sample at time `t` whose latest possession-indicating
event at or before `t` is `last`, possession is `last`'s team with confidence
high when `dt < 0.17` min and medium when `0.17 ≤ dt < 0.33` min; when
`dt ≥ 0.33` min and no possession-indicating event follows `t`, the sample's
possession fields stay null (the fallback to `last`'s team with confidence low
never fires without a following event). -/
theorem possession_confidence_decay (coords : CoordFrame) (events : EventFrame)
    (i : ℕ) (s : Sample) (t : ℚ) (last : Event)
    (hs : coords.rows[i]? = some s)
    (ht : s.estimated_minute = some t)
    (hl : last_event_before events t = some last) :
    ∃ s', (infer_possession coords events).rows[i]? = some s' ∧
      (t - last.minute < 17/100 →
        s'.possession_team = last.team_id ∧ s'.possession_confidence = some Conf.high) ∧
      (17/100 ≤ t - last.minute → t - last.minute < 33/100 →
        s'.possession_team = last.team_id ∧ s'.possession_confidence = some Conf.medium) ∧
      (33/100 ≤ t - last.minute → next_event_after events t = none →
        s'.possession_team = none ∧ s'.possession_confidence = none) := by
  have hrow : (infer_possession coords events).rows[i]? =
      some (infer_possession_row events
        { s with possession_team := none, possession_confidence := none }) := by
    simp [infer_possession, hs]
  refine ⟨_, hrow, ?_, ?_, ?_⟩
  · intro hdt
    simp only [infer_possession_row, ht, hl, if_pos hdt]
    constructor <;> trivial
  · intro h1 h2
    simp only [infer_possession_row, ht, hl, if_neg (not_lt.2 h1), if_pos h2]
    constructor <;> trivial
  · intro h1 hnone
    have h17 : ¬ (t - last.minute < 17/100) := not_lt.2 (le_trans (by norm_num) h1)
    simp only [infer_possession_row, ht, hl, if_neg h17, if_neg (not_lt.2 h1), hnone]
    constructor <;> trivial

/-- C1 witness: `possession_confidence_decay` for a sample at minute 20.1 with
a possession event at minute 20 (dt = 6 s, the high band). -/
theorem possession_confidence_decay_witness :
    coordsAt201.rows[0]? = some (estSample 0 (201/10)) ∧
    (estSample 0 (201/10)).estimated_minute = some (201/10) ∧
    last_event_before eventsA (201/10) = some evPassA ∧
    (∃ s', (infer_possession coordsAt201 eventsA).rows[0]? = some s' ∧
      (201/10 - evPassA.minute < 17/100 →
        s'.possession_team = evPassA.team_id ∧ s'.possession_confidence = some Conf.high) ∧
      (17/100 ≤ 201/10 - evPassA.minute → 201/10 - evPassA.minute < 33/100 →
        s'.possession_team = evPassA.team_id ∧ s'.possession_confidence = some Conf.medium) ∧
      (33/100 ≤ 201/10 - evPassA.minute → next_event_after eventsA (201/10) = none →
        s'.possession_team = none ∧ s'.possession_confidence = none)) := by
  have hA : is_possession_event evPassA = true := by decide
  have hAm : evPassA.minute = 20 := rfl
  have hl : last_event_before eventsA (201/10) = some evPassA := by
    norm_num [last_event_before, poss_events_sorted, sortByMinute, insertByMinute,
      eventsA, hA, hAm]
  exact ⟨rfl, rfl, hl,
    possession_confidence_decay coordsAt201 eventsA 0 (estSample 0 (201/10)) (201/10)
      evPassA rfl rfl hl⟩

/-- C2 (corrected): for a sample whose gap since the last possession event is
at least 0.33 min and which has no later possession event at all, the code
leaves possession null; the claim's "otherwise assign last_event's team with
confidence low" holds only when some later event exists. -/
theorem turnover_no_next_cex :
    last_event_before eventsA (205/10) = some evPassA ∧
    (33/100 : ℚ) ≤ 205/10 - evPassA.minute ∧
    next_event_after eventsA (205/10) = none ∧
    (infer_possession coordsAt205 eventsA).rows.map
        (fun s => (s.possession_team, s.possession_confidence)) = [(none, none)] ∧
    ((none : Option Int), (none : Option Conf)) ≠ (evPassA.team_id, some Conf.low) := by
  have hA : is_possession_event evPassA = true := by decide
  have hAm : evPassA.minute = 20 := rfl
  refine ⟨?_, ?_, ?_, ?_, ?_⟩
  · norm_num [last_event_before, poss_events_sorted, sortByMinute, insertByMinute,
      eventsA, hA, hAm]
  · norm_num [hAm]
  · norm_num [next_event_after, poss_events_sorted, sortByMinute, insertByMinute,
      eventsA, hA, hAm]
  · norm_num [infer_possession, infer_possession_row, last_event_before, next_event_after,
      poss_events_sorted, sortByMinute, insertByMinute, eventsA, coordsAt205,
      estSample, baseSample, hA, hAm]
  · decide

/-- C2 (amended): for a sample at time `t` with `dt = t - last.minute ≥ 0.33`
min: when the next possession-indicating event after `t` exists, is less than
0.33 min away and belongs to a different team, the sample gets that event's
team with confidence low; when it exists otherwise, the sample falls back to
`last`'s team with confidence low; when no such event exists the possession
fields stay null. -/
theorem turnover_window (coords : CoordFrame) (events : EventFrame)
    (i : ℕ) (s : Sample) (t : ℚ) (last : Event)
    (hs : coords.rows[i]? = some s)
    (ht : s.estimated_minute = some t)
    (hl : last_event_before events t = some last)
    (hdt : 33/100 ≤ t - last.minute) :
    ∃ s', (infer_possession coords events).rows[i]? = some s' ∧
      (∀ nxt, next_event_after events t = some nxt →
        ((nxt.minute - t < 33/100 ∧ nxt.team_id ≠ last.team_id) →
          s'.possession_team = nxt.team_id ∧ s'.possession_confidence = some Conf.low) ∧
        (¬ (nxt.minute - t < 33/100 ∧ nxt.team_id ≠ last.team_id) →
          s'.possession_team = last.team_id ∧ s'.possession_confidence = some Conf.low)) ∧
      (next_event_after events t = none →
        s'.possession_team = none ∧ s'.possession_confidence = none) := by
  have hrow : (infer_possession coords events).rows[i]? =
      some (infer_possession_row events
        { s with possession_team := none, possession_confidence := none }) := by
    simp [infer_possession, hs]
  have h17 : ¬ (t - last.minute < 17/100) := not_lt.2 (le_trans (by norm_num) hdt)
  have h33 : ¬ (t - last.minute < 33/100) := not_lt.2 hdt
  refine ⟨_, hrow, ?_, ?_⟩
  · intro nxt hnxt
    constructor
    · intro hc
      simp only [infer_possession_row, ht, hl, if_neg h17, if_neg h33, hnxt, if_pos hc]
      constructor <;> trivial
    · intro hc
      simp only [infer_possession_row, ht, hl, if_neg h17, if_neg h33, hnxt, if_neg hc]
      constructor <;> trivial
  · intro hnone
    simp only [infer_possession_row, ht, hl, if_neg h17, if_neg h33, hnone]
    constructor <;> trivial

/-- C2 witness: `turnover_window` for the claim's example — event A (team 1)
at minute 20, event B (team 2) at minute 20.4, sample at minute 20.35. -/
theorem turnover_window_witness :
    coordsAt2035.rows[0]? = some (estSample 0 (2035/100)) ∧
    (estSample 0 (2035/100)).estimated_minute = some (2035/100) ∧
    last_event_before eventsAB (2035/100) = some evPassA ∧
    (33/100 : ℚ) ≤ 2035/100 - evPassA.minute ∧
    (∃ s', (infer_possession coordsAt2035 eventsAB).rows[0]? = some s' ∧
      (∀ nxt, next_event_after eventsAB (2035/100) = some nxt →
        ((nxt.minute - 2035/100 < 33/100 ∧ nxt.team_id ≠ evPassA.team_id) →
          s'.possession_team = nxt.team_id ∧ s'.possession_confidence = some Conf.low) ∧
        (¬ (nxt.minute - 2035/100 < 33/100 ∧ nxt.team_id ≠ evPassA.team_id) →
          s'.possession_team = evPassA.team_id ∧ s'.possession_confidence = some Conf.low)) ∧
      (next_event_after eventsAB (2035/100) = none →
        s'.possession_team = none ∧ s'.possession_confidence = none)) := by
  have hA : is_possession_event evPassA = true := by decide
  have hB : is_possession_event evShotB = true := by decide
  have hAm : evPassA.minute = 20 := rfl
  have hBm : evShotB.minute = 204/10 := rfl
  have hl : last_event_before eventsAB (2035/100) = some evPassA := by
    norm_num [last_event_before, poss_events_sorted, sortByMinute, insertByMinute,
      eventsAB, hA, hB, hAm, hBm]
  refine ⟨rfl, rfl, hl, by norm_num [hAm], ?_⟩
  exact turnover_window coordsAt2035 eventsAB 0 (estSample 0 (2035/100)) (2035/100)
    evPassA rfl rfl hl (by norm_num [hAm])

theorem pickClosest_cons_none {p : Sample × ℚ} {rest : List (Sample × ℚ)}
    (h : pickClosest rest = none) : pickClosest (p :: rest) = some p := by
  simp [pickClosest, h]

theorem pickClosest_cons_some {p q' : Sample × ℚ} {rest : List (Sample × ℚ)}
    (h : pickClosest rest = some q') :
    pickClosest (p :: rest) = if q'.2 < p.2 then some q' else some p := by
  simp [pickClosest, h]

theorem pickClosest_eq_none {l : List (Sample × ℚ)} : pickClosest l = none ↔ l = [] := by
  cases l with
  | nil => simp [pickClosest]
  | cons p rest =>
    cases h : pickClosest rest with
    | none => simp [pickClosest_cons_none h]
    | some q => rw [pickClosest_cons_some h]; split <;> simp

theorem pickClosest_min {l : List (Sample × ℚ)} {q : Sample × ℚ}
    (h : pickClosest l = some q) : ∀ p ∈ l, q.2 ≤ p.2 := by
  induction l generalizing q with
  | nil => simp [pickClosest] at h
  | cons p rest ih =>
    intro r hr
    cases hrec : pickClosest rest with
    | none =>
      rw [pickClosest_cons_none hrec] at h
      injection h with h
      subst h
      have : rest = [] := pickClosest_eq_none.mp hrec
      subst this
      cases List.mem_singleton.mp hr
      exact le_refl _
    | some q' =>
      rw [pickClosest_cons_some hrec] at h
      rcases List.mem_cons.mp hr with rfl | hr'
      · by_cases hlt : q'.2 < r.2
        · rw [if_pos hlt] at h
          injection h with h
          subst h
          exact le_of_lt hlt
        · rw [if_neg hlt] at h
          injection h with h
          subst h
          exact le_refl _
      · by_cases hlt : q'.2 < p.2
        · rw [if_pos hlt] at h
          injection h with h
          subst h
          exact ih hrec r hr'
        · rw [if_neg hlt] at h
          injection h with h
          subst h
          exact le_trans (not_lt.1 hlt) (ih hrec r hr')

theorem pickClosest_first {l : List (Sample × ℚ)} {q : Sample × ℚ}
    (h : pickClosest l = some q) :
    ∃ l1 l2, l = l1 ++ q :: l2 ∧ ∀ p ∈ l1, q.2 < p.2 := by
  induction l generalizing q with
  | nil => simp [pickClosest] at h
  | cons p rest ih =>
    cases hrec : pickClosest rest with
    | none =>
      rw [pickClosest_cons_none hrec] at h
      injection h with h
      subst h
      exact ⟨[], rest, rfl, by simp⟩
    | some q' =>
      rw [pickClosest_cons_some hrec] at h
      by_cases hlt : q'.2 < p.2
      · rw [if_pos hlt] at h
        injection h with h
        subst h
        obtain ⟨l1, l2, hl, hless⟩ := ih hrec
        refine ⟨p :: l1, l2, by rw [hl, List.cons_append], ?_⟩
        intro r hr
        rcases List.mem_cons.mp hr with rfl | hr'
        · exact hlt
        · exact hless r hr'
      · rw [if_neg hlt] at h
        injection h with h
        subst h
        exact ⟨[], rest, rfl, by simp⟩

theorem filterMap_eq_append_cons {α β : Type _} (f : α → Option β) :
    ∀ (l : List α) (l1 : List β) (b : β) (l2 : List β),
      l.filterMap f = l1 ++ b :: l2 →
      ∃ m1 a m2, l = m1 ++ a :: m2 ∧ f a = some b ∧
        m1.filterMap f = l1 ∧ m2.filterMap f = l2 := by
  intro l
  induction l with
  | nil =>
    intro l1 b l2 h
    rw [List.filterMap_nil] at h
    exact absurd h.symm (List.append_ne_nil_of_right_ne_nil _ (List.cons_ne_nil _ _))
  | cons x xs ih =>
    intro l1 b l2 h
    rw [List.filterMap_cons] at h
    cases hfx : f x with
    | none =>
      rw [hfx] at h
      obtain ⟨m1, a, m2, hl, hfa, h1, h2⟩ := ih l1 b l2 h
      exact ⟨x :: m1, a, m2, by rw [hl, List.cons_append],
        hfa, by rw [List.filterMap_cons, hfx, h1], h2⟩
    | some y =>
      rw [hfx] at h
      cases l1 with
      | nil =>
        rw [List.nil_append] at h
        injection h with h1 h2
        exact ⟨[], x, xs, rfl, by rw [hfx, h1], rfl, h2⟩
      | cons z zs =>
        rw [List.cons_append] at h
        injection h with h1 h2
        obtain ⟨m1, a, m2, hl, hfa, hm1, hm2⟩ := ih zs b l2 h2
        exact ⟨x :: m1, a, m2, by rw [hl, List.cons_append],
          hfa, by rw [List.filterMap_cons, hfx, hm1, h1], hm2⟩

theorem link_diff_eq_some {m tol : ℚ} {s : Sample} {q : Sample × ℚ} :
    link_diff m tol s = some q ↔
      ∃ t, s.estimated_minute = some t ∧ |t - m| ≤ tol ∧ q = (s, |t - m|) := by
  unfold link_diff
  cases hse : s.estimated_minute with
  | none => simp
  | some t =>
    by_cases hc : |t - m| ≤ tol
    · simp [hse, hc, eq_comm]
    · simp [hse, hc]

theorem link_none_iff (m tolsec : ℚ) (coords : CoordFrame) :
    link_event_to_coordinate (some m) coords tolsec = none ↔
      ∀ s ∈ coords.rows, ∀ t, s.estimated_minute = some t →
        ¬ (|t - m| ≤ tolsec / 60) := by
  simp only [link_event_to_coordinate]
  rw [Option.map_eq_none', pickClosest_eq_none]
  constructor
  · intro hq s hsr t hts htol
    have hmem : (s, |t - m|) ∈ coords.rows.filterMap (link_diff m (tolsec / 60)) :=
      List.mem_filterMap.mpr ⟨s, hsr, link_diff_eq_some.mpr ⟨t, hts, htol, rfl⟩⟩
    rw [hq] at hmem
    cases hmem
  · intro hall
    rw [List.eq_nil_iff_forall_not_mem]
    intro q hq
    obtain ⟨s, hsr, hds⟩ := List.mem_filterMap.mp hq
    obtain ⟨t, hts, htol, rfl⟩ := link_diff_eq_some.mp hds
    exact hall s hsr t hts htol

theorem link_some_spec (m tolsec : ℚ) (coords : CoordFrame) (c : Sample)
    (h : link_event_to_coordinate (some m) coords tolsec = some c) :
    c ∈ coords.rows ∧
    ∃ tc, c.estimated_minute = some tc ∧ |tc - m| ≤ tolsec / 60 ∧
      (∀ s ∈ coords.rows, ∀ t, s.estimated_minute = some t →
        |t - m| ≤ tolsec / 60 → |tc - m| ≤ |t - m|) ∧
      ∃ pre post, coords.rows = pre ++ c :: post ∧
        ∀ s ∈ pre, ∀ t, s.estimated_minute = some t →
          |t - m| ≤ tolsec / 60 → |tc - m| < |t - m| := by
  simp only [link_event_to_coordinate] at h
  cases hp : pickClosest (coords.rows.filterMap (link_diff m (tolsec / 60))) with
  | none => rw [hp] at h; cases h
  | some q =>
    rw [hp, Option.map_some'] at h
    injection h with h
    obtain ⟨l1, l2, hsplit, hless⟩ := pickClosest_first hp
    obtain ⟨m1, a, m2, hrows, hfa, hm1, _⟩ := filterMap_eq_append_cons _ _ _ _ _ hsplit
    obtain ⟨tc, htc, htol, heq⟩ := link_diff_eq_some.mp hfa
    subst heq
    have hac : a = c := h
    subst hac
    refine ⟨by rw [hrows]; exact List.mem_append_right _ (List.mem_cons_self _ _),
      tc, htc, htol, ?_, ?_⟩
    · intro s hsr t hts htol2
      have hmem : (s, |t - m|) ∈ coords.rows.filterMap (link_diff m (tolsec / 60)) :=
        List.mem_filterMap.mpr ⟨s, hsr, link_diff_eq_some.mpr ⟨t, hts, htol2, rfl⟩⟩
      exact pickClosest_min hp _ hmem
    · refine ⟨m1, m2, hrows, ?_⟩
      intro s hsm t hts htol2
      have hmem : (s, |t - m|) ∈ l1 := by
        rw [← hm1]
        exact List.mem_filterMap.mpr ⟨s, hsm, link_diff_eq_some.mpr ⟨t, hts, htol2, rfl⟩⟩
      exact hless _ hmem

/-- C4 (corrected on tie-breaking): with an event at minute 10 and two
positions tied at 3 s distance — the one listed first carrying sequence 5, the
other sequence 1 — the linker returns the first-listed position (sequence 5),
not the one with the lowest sequence. -/
theorem linker_tiebreak_cex :
    (link_event_to_coordinate (some 10) coordsTie 5).map Sample.sequence = some 5 ∧
    (estSample 5 (10 + 1/20)).estimated_minute = some (10 + 1/20) ∧
    (estSample 1 (10 - 1/20)).estimated_minute = some (10 - 1/20) ∧
    |(10 + 1/20 : ℚ) - 10| = |(10 - 1/20 : ℚ) - 10| ∧
    |(10 + 1/20 : ℚ) - 10| ≤ 1/12 ∧
    (5 : Int) ≠ 1 := by
  refine ⟨?_, rfl, rfl, ?_, by norm_num [abs_of_nonneg], by decide⟩
  · norm_num [link_event_to_coordinate, link_diff, pickClosest, coordsTie,
      estSample, baseSample, List.filterMap_cons, abs_of_nonneg, abs_of_nonpos]
  · have h1 : (10 + 1/20 : ℚ) - 10 = 1/20 := by norm_num
    have h2 : (10 - 1/20 : ℚ) - 10 = -(1/20) := by norm_num
    rw [h1, h2, abs_neg]

/-- C4 (amended): with tolerance 5.0 s the linker returns `none` exactly when
no position lies within 1/12 min (5 s, boundary inclusive) of the event
minute; otherwise it returns a qualifying position of minimal absolute time
difference, ties broken by the earliest position in collection order (not by
lowest sequence). -/
theorem linker_postcondition (m : ℚ) (coords : CoordFrame) :
    (link_event_to_coordinate (some m) coords 5 = none ↔
      ∀ s ∈ coords.rows, ∀ t, s.estimated_minute = some t → ¬ (|t - m| ≤ 1/12)) ∧
    (∀ c, link_event_to_coordinate (some m) coords 5 = some c →
      c ∈ coords.rows ∧
      ∃ tc, c.estimated_minute = some tc ∧ |tc - m| ≤ 1/12 ∧
        (∀ s ∈ coords.rows, ∀ t, s.estimated_minute = some t → |t - m| ≤ 1/12 →
          |tc - m| ≤ |t - m|) ∧
        ∃ pre post, coords.rows = pre ++ c :: post ∧
          ∀ s ∈ pre, ∀ t, s.estimated_minute = some t → |t - m| ≤ 1/12 →
            |tc - m| < |t - m|) := by
  have h512 : (5 : ℚ) / 60 = 1/12 := by norm_num
  constructor
  · rw [link_none_iff, h512]
  · intro c hc
    have hspec := link_some_spec m 5 coords c hc
    rw [h512] at hspec
    exact hspec

/-- C4 witness: the inclusive tolerance boundary — a sample exactly 5.0 s from
the event links, a sample 5.04 s away does not (via `linker_postcondition`). -/
theorem linker_postcondition_witness :
    link_event_to_coordinate (some 10) coordsBoundary 5 = some (estSample 0 (10 + 1/12)) ∧
    link_event_to_coordinate (some 10) coordsPastBoundary 5 = none := by
  constructor
  · norm_num [link_event_to_coordinate, link_diff, pickClosest, coordsBoundary,
      estSample, baseSample, List.filterMap_cons, abs_of_nonneg, abs_of_nonpos]
  · refine (linker_postcondition 10 coordsPastBoundary).1.mpr ?_
    intro s hs t hts
    have hsx : s = estSample 0 (10 + 84/1000) := by
      simpa [coordsPastBoundary] using hs
    subst hsx
    have htx : t = 10 + 84/1000 := by
      have : some (10 + 84/1000 : ℚ) = some t := hts
      injection this with h
      exact h.symm
    subst htx
    norm_num [abs_of_nonneg]

/-- C7 (corrected): a linked event whose time difference is 0.083 min
(4.98 s — under the 5 s tolerance and at least 3 s) receives confidence low,
not medium: the source's medium band ends at 0.083 min, not at 5 s. -/
theorem link_confidence_low_cex :
    (link_to_ball_coordinates_row (some 0) coordsNearTol 5).link_confidence = some Conf.low ∧
    (link_event_to_coordinate (some 0) coordsNearTol 5).isSome = true ∧
    |(83/1000 : ℚ) - 0| < 1/12 ∧
    (5/100 : ℚ) ≤ |(83/1000 : ℚ) - 0| ∧
    Conf.low ≠ Conf.medium := by
  refine ⟨?_, ?_, by norm_num [abs_of_nonneg], by norm_num [abs_of_nonneg], by decide⟩
  · norm_num [link_to_ball_coordinates_row, link_confidence_of,
      link_event_to_coordinate, link_diff, pickClosest, coordsNearTol,
      estSample, baseSample, List.filterMap_cons, abs_of_nonneg, abs_of_nonpos]
  · norm_num [link_event_to_coordinate, link_diff, pickClosest, coordsNearTol,
      estSample, baseSample, List.filterMap_cons, abs_of_nonneg, abs_of_nonpos]

/-- C7 (amended): every linked event is banded on the actual time difference
as high below 0.05 min (3 s), medium in `[0.05, 0.083)` min, and low from
0.083 min up — so with the default 5 s tolerance a linked difference in
`[0.083, 1/12]` min (between 4.98 s and 5.0 s) is banded low even though it is
within the tolerance. -/
theorem link_confidence_banding (m : ℚ) (coords : CoordFrame) (c : Sample) (tc : ℚ)
    (hlink : link_event_to_coordinate (some m) coords 5 = some c)
    (htc : c.estimated_minute = some tc) :
    (link_to_ball_coordinates_row (some m) coords 5).link_confidence =
      some (if |tc - m| < 5/100 then Conf.high
            else if |tc - m| < 83/1000 then Conf.medium else Conf.low) ∧
    |tc - m| ≤ 1/12 := by
  constructor
  · simp only [link_to_ball_coordinates_row, hlink, htc, Option.getD_some,
      link_confidence_of]
  · obtain ⟨-, tc', htc', htol, -, -⟩ := link_some_spec m 5 coords c hlink
    rw [htc] at htc'
    injection htc' with h
    subst h
    have h512 : (5 : ℚ) / 60 = 1/12 := by norm_num
    rwa [h512] at htol

/-- C7 witness: `link_confidence_banding` at the 0.083-min sample. -/
theorem link_confidence_banding_witness :
    link_event_to_coordinate (some 0) coordsNearTol 5 = some (estSample 0 (83/1000)) ∧
    (estSample 0 (83/1000)).estimated_minute = some (83/1000) ∧
    ((link_to_ball_coordinates_row (some 0) coordsNearTol 5).link_confidence =
      some (if |(83/1000 : ℚ) - 0| < 5/100 then Conf.high
            else if |(83/1000 : ℚ) - 0| < 83/1000 then Conf.medium else Conf.low) ∧
     |(83/1000 : ℚ) - 0| ≤ 1/12) := by
  have hlink : link_event_to_coordinate (some 0) coordsNearTol 5 =
      some (estSample 0 (83/1000)) := by
    norm_num [link_event_to_coordinate, link_diff, pickClosest, coordsNearTol,
      estSample, baseSample, List.filterMap_cons, abs_of_nonneg, abs_of_nonpos]
  exact ⟨hlink, rfl,
    link_confidence_banding 0 coordsNearTol (estSample 0 (83/1000)) (83/1000) hlink rfl⟩

end FootballAnalytics
